import Mathlib

/-!
Verification of the assignment-and-conversion engine of the A/B split-test
script (source: `src/unnamed/part_003`).

The engine's persisted state is a cookie/localStorage key-value store holding
JSON strings, plus the countdown-timer map `window.abst.timer`.  We embed the
store shallowly: a stored string is abstracted by `RawVal`, which records
whether the string is the JSON serialisation of an assignment record
(`.record`), of a pending-visit record (`.pending`), a bare JSON literal such
as the string "false" (`.lit`), or a malformed string on which `JSON.parse`
throws (`.corrupt`).  Every stored string is non-empty, hence truthy in JS.

JS exceptions (the unguarded `JSON.parse` calls, property access on a missing
`bt_experiments[eid]`) are modelled with `Except String`.  Observable side
effects other than state (analytics/beacon reports, `window.location.replace`
navigations, `getRandomInt` draws, audience-targeting evaluations, countdown
firings) are collected in an effect trace `List Eff`.
-/

namespace ABST

/-- Assignment record as serialised into the `btab_<eid>` cookie.  `goals` is
the JS array `goals` (`none` entries are array holes / JSON `null`); the
whole field is `none` when the record has no `goals` key at all (as in the
records written by `skippedCookie`).  `skipped` records presence of the
truthy `skipped: 1` key. -/
structure BTabRecord where
  eid : String
  variation : String
  conversion : Int
  goals : Option (List (Option Int))
  skipped : Bool
deriving DecidableEq, Repr

/-- Event type argument `type` of `bt_experiment_w`: the strings `visit` and
`conversion`, a goal index, or any other (e.g. undefined) value. -/
inductive EvType where
  | visit
  | conversion
  | goal (k : Nat)
  | other
deriving DecidableEq, Repr

/-- Pending-visit record serialised into the `ab-set-visit` cookie before a
full-page redirect. -/
structure PendingVisit where
  eid : String
  variation : String
  type : EvType
  url : String
  orderValue : Int
deriving DecidableEq, Repr

/-- Abstraction of a raw stored cookie string (see module docstring). -/
inductive RawVal where
  | record (r : BTabRecord)
  | pending (p : PendingVisit)
  | lit (b : Bool)
  | corrupt (s : String)
deriving DecidableEq, Repr

/-- Source `JSON.parse`: succeeds on everything except a `.corrupt` string. -/
def jsonParse : RawVal → Option RawVal
  | .corrupt _ => none
  | v => some v

/-- Property read `x.variation` on a parsed value; a missing property reads
as undefined, modelled by the empty string. -/
def RawVal.variationField : RawVal → String
  | .record r => r.variation
  | .pending p => p.variation
  | _ => ""

/-- Property read `x.eid` on a parsed value. -/
def RawVal.eidField : RawVal → String
  | .record r => r.eid
  | .pending p => p.eid
  | _ => ""

/-- Property read `x.type` on a parsed value; missing property is `.other`. -/
def RawVal.typeField : RawVal → EvType
  | .pending p => p.type
  | _ => .other

/-- Property read `x.conversion`; `none` models JS undefined. -/
def RawVal.conversionField : RawVal → Option Int
  | .record r => some r.conversion
  | _ => none

/-- Payload of `btab_track_event` / the logging beacon, built in
`bt_experiment_w`. -/
structure EventData where
  eid : String
  variation : String
  type : EvType
  location : String
  orderValue : Int
deriving DecidableEq, Repr

/-- Observable side effects of the engine. -/
inductive Eff where
  | report (e : EventData)
  | navigate (url : String)
  | roll (lo hi result : Int)
  | evalTargeting
  | timerFire (index : String)
deriving DecidableEq, Repr

/-- True on the effects that claim C3 forbids on the existing-record path:
random draws and audience-targeting evaluations. -/
def Eff.isSampling : Eff → Bool
  | .roll _ _ _ => true
  | .evalTargeting => true
  | _ => false

/-- Engine state: the persisted cookie store and the countdown-timer map
`window.abst.timer` (persisted to `localStorage.absttimer` each tick; we keep
one map since the claims never distinguish the two copies). -/
structure EngineSt where
  store : List (String × RawVal)
  timer : List (String × Int)
deriving DecidableEq, Repr

/-- Cookie read `abstGetCookie`. -/
def storeGet (s : List (String × RawVal)) (k : String) : Option RawVal :=
  (s.find? (fun p => p.fst == k)).map Prod.snd

/-- Cookie write `abstSetCookie` (an existing key is overwritten). -/
def storeSet (s : List (String × RawVal)) (k : String) (v : RawVal) :
    List (String × RawVal) :=
  (k, v) :: s.filter (fun p => !(p.fst == k))

/-- Timer-map read. -/
def timerGet (t : List (String × Int)) (k : String) : Option Int :=
  (t.find? (fun p => p.fst == k)).map Prod.snd

/-- Timer-map write. -/
def timerSet (t : List (String × Int)) (k : String) (v : Int) :
    List (String × Int) :=
  (k, v) :: t.filter (fun p => !(p.fst == k))

/-- JS array element read `goals[i]`: out-of-range and holes give undefined
(`none`), `null` entries also give `none` for the purposes of the `!== 0` and
`== 1` comparisons the source performs on them. -/
def getGoalIdx (gs : List (Option Int)) (i : Nat) : Option Int :=
  gs.getD i none

/-- JS array element write `goals[i] = v`: assigning past the end extends the
array with holes (serialised as `null` by `JSON.stringify`). -/
def setGoalIdx (gs : List (Option Int)) (i : Nat) (v : Int) :
    List (Option Int) :=
  (gs ++ List.replicate (i + 1 - gs.length) none).set i (some v)

/-- Value of the `target_percentage` configuration field, which reaches the
script either as a number or as a string. -/
inductive TPVal where
  | num (n : Int)
  | str (s : String)
deriving DecidableEq, Repr

/-- JS loose equality `targetPercentage == ''` (line 532).  ToNumber of the
empty string is 0, so a numeric 0 compares equal to the empty string; a
string compares by strict string equality. -/
def TPVal.jsEqEmptyStr : TPVal → Bool
  | .num n => n == 0
  | .str s => s == ""

/-- ToNumber coercion used by `targetPercentage < percentage`; `none` models
NaN (every comparison with NaN is false).  Only plain integer literals are
in the modelled scope. -/
def TPVal.toNumber : TPVal → Option Int
  | .num n => some n
  | .str s => if s == "" then some 0 else s.toInt?

/-- The percentage-gate comparison `targetPercentage < percentage`. -/
def tpLtRoll (tp : TPVal) (roll : Int) : Bool :=
  match tp.toNumber with
  | some v => v < roll
  | none => false

/-- Per-goal configuration; only the `time` key is read by
`bt_experiment_w` when registering goal countdown timers. -/
structure GoalCfg where
  time : Int
deriving DecidableEq, Repr

/-- Experiment configuration `bt_experiments[eid]`, restricted to the fields
the claims exercise. -/
structure ExpCfg where
  name : String
  test_winner : String
  test_type : String
  test_status : String
  is_current_user_track : Bool
  target_percentage : TPVal
  url_query : String
  target_option_device_size : String
  conversion_page : String
  conversion_time : Int
  css_test_variations : Nat
  full_page_default_page : String
  page_variations : List (String × String)
  goals : List (Nat × GoalCfg)
deriving DecidableEq, Repr

/-- Ambient page environment: configuration map, `btab_vars`, location data,
the current DOM (as predicates), consent state and the random oracle
(`getRandomInt`, given min and max). -/
structure Env where
  cfgs : String → Option ExpCfg
  is_preview : Bool
  is_free : Bool
  post_id : String
  search : String
  locHash : String
  hasUuid : Bool
  width : Int
  borlabsBlocked : Bool
  domVariations : String → List String
  domHasVariation : String → String → Bool
  rand : Int → Int → Int

/-- Split of a character list on a non-empty separator, by fuelled
structural recursion (so that it reduces inside the kernel; `List.length`
plus one is always enough fuel).  An empty separator never reaches this
function in the embedding. -/
def jsSplitGo (sep : List Char) : Nat → List Char → List Char → List (List Char)
  | 0, acc, rest => [acc.reverse ++ rest]
  | _ + 1, acc, [] => [acc.reverse]
  | fuel + 1, acc, c :: rest =>
    if sep.isPrefixOf (c :: rest) then
      acc.reverse :: jsSplitGo sep fuel [] ((c :: rest).drop sep.length)
    else jsSplitGo sep fuel (c :: acc) rest

/-- JS `String.prototype.split` with a non-empty string separator. -/
def jsSplit (s sep : String) : List String :=
  (jsSplitGo sep.toList (s.toList.length + 1) [] s.toList).map List.asString

/-- JS `String.prototype.trim`. -/
def jsTrim (s : String) : String :=
  (((s.toList.dropWhile fun c => c.isWhitespace).reverse.dropWhile
      fun c => c.isWhitespace).reverse).asString

/-- JS `String.prototype.substring(1)`. -/
def jsDropFirst (s : String) : String :=
  (s.toList.drop 1).asString

/-- JS `String.prototype.startsWith`. -/
def jsStartsWith (s pre : String) : Bool :=
  pre.toList.isPrefixOf s.toList

/-- JS `String.prototype.includes`. -/
def jsIncludes (s sub : String) : Bool :=
  sub == "" || (jsSplit s sub).length != 1

/-- Result of `bt_getQueryVariable`: `true`, `false`, or the value string. -/
inductive QueryRes where
  | boolv (b : Bool)
  | strv (s : String)
deriving DecidableEq, Repr

/-- JS truthiness of a `QueryRes`. -/
def QueryRes.truthy : QueryRes → Bool
  | .boolv b => b
  | .strv s => s != ""

/-- Source `bt_getQueryVariable` (lines 1228-1240): scan the query string for
the first `key=value` pair matching `variable`; a bare key returns true, a
missing key returns false. -/
def bt_getQueryVariableGo (variable_ : String) : List String → QueryRes
  | [] => .boolv false
  | v :: rest =>
    let pair := jsSplit v "="
    if pair.headD "" == variable_ then
      if pair.length < 2 then .boolv true else .strv (pair.getD 1 "")
    else bt_getQueryVariableGo variable_ rest

/-- Source `bt_getQueryVariable` applied to `location.search`. -/
def bt_getQueryVariable (search variable_ : String) : QueryRes :=
  bt_getQueryVariableGo variable_ (jsSplit (jsDropFirst search) "&")

/-- JS loose equality `exploded_query[1] == urlQueryResult` where the right
side is a `QueryRes`: string-string is strict; string-boolean goes through
ToNumber (booleans coerce to 0/1, non-numeric strings to NaN). -/
def jsLooseEqStrQ (s : String) (q : QueryRes) : Bool :=
  match q with
  | .strv t => s == t
  | .boolv b => s.toInt? == some (if b then 1 else 0)

/-- Source `abRedirectUrl` (lines 835-844). -/
def abRedirectUrl (env : Env) (url : String) : String :=
  let u := url ++ env.search ++ env.locHash
  if jsStartsWith u "http" || jsStartsWith u "/" then u else "/" ++ u

/-- Outcome of a `bt_experiment_w` call. -/
inductive WOutcome where
  | ignored
  | navigated
  | deferred
  | logged
deriving DecidableEq, Repr

/-- Registration of goal countdown timers on a visit (lines 1022-1034). -/
def setGoalTimers (t : List (String × Int)) (eid : String)
    (goals : List (Nat × GoalCfg)) : List (String × Int) :=
  goals.foldl
    (fun acc kg =>
      if kg.snd.time > 0 then
        timerSet acc ("goal-" ++ eid ++ "-" ++ toString kg.fst) kg.snd.time
      else acc)
    t

/-- Source `bt_experiment_w` (lines 967-1066).  The `url` argument is a
string, with the empty string standing for every falsy value (`false`,
undefined, `''`).  A missing `bt_experiments[eid]` makes the property access
on line 989 throw.  The `btab_track_event` call and the final `sendBeacon`
are modelled as one `Eff.report`. -/
def bt_experiment_w (env : Env) (st : EngineSt) (eid variation : String)
    (ty : EvType) (url : String) (orderValue : Int) :
    Except String (EngineSt × List Eff × WOutcome) :=
  if variation == "_bt_skip_" || env.is_preview || eid == "" || variation == "" then
    .ok (st, [], .ignored)
  else if ty == .visit && url != "" then
    let pv : PendingVisit :=
      { eid := eid, variation := variation, type := ty, url := url,
        orderValue := orderValue }
    .ok ({ st with store := storeSet st.store "ab-set-visit" (.pending pv) },
      [.navigate (abRedirectUrl env url)], .navigated)
  else
    match env.cfgs eid with
    | none => .error "TypeError: bt_experiments[eid] is undefined"
    | some cfg =>
      if cfg.conversion_page == "fingerprint" && !env.hasUuid then
        .ok (st, [], .deferred)
      else
        let data : EventData :=
          { eid := eid, variation := variation, type := ty,
            location := env.post_id, orderValue := orderValue }
        let t1 :=
          if ty == .visit && cfg.conversion_page == "time" then
            timerSet st.timer eid cfg.conversion_time
          else st.timer
        let t2 := if ty == .visit then setGoalTimers t1 eid cfg.goals else t1
        let vars0 : BTabRecord :=
          { eid := eid, variation := variation, conversion := 0,
            goals := some [], skipped := false }
        let vars1 :=
          match ty with
          | .conversion => { vars0 with conversion := 1 }
          | .visit => vars0
          | .goal k => { vars0 with goals := some (setGoalIdx [] k 1) }
          | .other => vars0
        .ok ({ store := storeSet st.store ("btab_" ++ eid) (.record vars1),
               timer := t2 },
          [.report data], .logged)

/-- Source `abstConvert` (lines 673-702).  The already-converted branch logs
`bt_experiments[testId].name`, which throws when the experiment is missing;
the `clearInterval` on the text-watcher handle is presentation-side and not
part of the persisted state. -/
def abstConvert (env : Env) (st : EngineSt) (testId : String)
    (orderValue : Int) : Except String (EngineSt × List Eff) :=
  if testId == "" then .ok (st, [])
  else
    match storeGet st.store ("btab_" ++ testId) with
    | none => .ok (st, [])
    | some raw =>
      match jsonParse raw with
      | none => .error "SyntaxError: JSON.parse in abstConvert"
      | some (.record r) =>
        if r.conversion == 0 then
          match bt_experiment_w env st testId r.variation .conversion "" orderValue with
          | .error e => .error e
          | .ok (st1, effs, _) =>
            let r2 := { r with conversion := 1 }
            .ok ({ st1 with
                store := storeSet st1.store ("btab_" ++ testId) (.record r2) },
              effs)
        else
          match env.cfgs testId with
          | none => .error "TypeError: name of undefined in abstConvert"
          | some _ => .ok (st, [])
      | some _ =>
        match env.cfgs testId with
        | none => .error "TypeError: name of undefined in abstConvert"
        | some _ => .ok (st, [])

/-- Source `abstGoal` (lines 704-745).  `goal` is a goal index; the callers
in scope always pass a non-empty one, so the `goal !== ''` guard is carried
by the type.  Note the guard on line 718 is `goals[goal] !== 0`, not
`!== 1`. -/
def abstGoal (env : Env) (st : EngineSt) (testId : String) (goal : Nat) :
    Except String (EngineSt × List Eff) :=
  if testId == "" then .ok (st, [])
  else
    match storeGet st.store ("btab_" ++ testId) with
    | none => .ok (st, [])
    | some raw =>
      match jsonParse raw with
      | none => .error "SyntaxError: JSON.parse in abstGoal"
      | some (.record r) =>
        if r.conversion ≠ 1 then
          match r.goals with
          | some gs =>
            if getGoalIdx gs goal != some 0 then
              match bt_experiment_w env st testId r.variation (.goal goal) "" 1 with
              | .error e => .error e
              | .ok (st1, effs, _) =>
                let r1 := { r with goals := some (setGoalIdx gs goal 1) }
                .ok ({ st1 with
                    store := storeSet st1.store ("btab_" ++ testId) (.record r1) },
                  effs)
            else
              .ok ({ st with
                  store := storeSet st.store ("btab_" ++ testId) (.record r) },
                [])
          | none =>
            match env.cfgs testId with
            | none => .error "TypeError: name of undefined in abstGoal"
            | some _ => .ok (st, [])
        else .ok (st, [])
      | some _ =>
        match env.cfgs testId with
        | none => .error "TypeError: name of undefined in abstGoal"
        | some _ => .ok (st, [])

/-- Source `skippedCookie` (lines 822-832): the skip record carries
`conversion: 1` and `skipped: 1` and no `goals` key. -/
def skippedCookie (st : EngineSt) (eid btv : String) : EngineSt :=
  let r : BTabRecord :=
    { eid := eid, variation := btv, conversion := 1, goals := none,
      skipped := true }
  { st with store := storeSet st.store ("btab_" ++ eid) (.record r) }

/-- The canonical control-alias list of `showSkippedVisitorDefault`. -/
def defaultNames : List String :=
  ["original", "one", "1", "default", "standard", "a", "control"]

/-- Source `showSkippedVisitorDefault` (lines 747-821).  DOM class additions
are presentation-side; the state-relevant behaviour is the optional
`skippedCookie` write and the full-page-winner navigation.  A full-page
winner without a matching page falls through to the plain full-page branch,
as in the source. -/
def showSkippedVisitorDefault (env : Env) (st : EngineSt) (eid : String)
    (createCookie : Bool) : EngineSt × List Eff :=
  match env.cfgs eid with
  | none => (st, [])
  | some cfg =>
    if cfg.test_winner != "" && cfg.test_type == "full_page" then
      match (cfg.page_variations.find? (fun p => p.fst == cfg.test_winner)).map Prod.snd with
      | some url => (st, [.navigate (abRedirectUrl env url)])
      | none =>
        (if createCookie then skippedCookie st eid cfg.full_page_default_page
         else st, [])
    else if cfg.test_winner != "" && cfg.test_type == "css_test" then
      (st, [])
    else if cfg.test_type == "full_page" then
      (if createCookie then skippedCookie st eid cfg.full_page_default_page
       else st, [])
    else if cfg.test_type == "css_test" then
      (if createCookie then skippedCookie st eid ("test-css-" ++ eid ++ "-1")
       else st, [])
    else
      if eid == "" then (st, [])
      else
        let doms := env.domVariations eid
        let specials :=
          (doms.map (fun v => v.toLower)).filter (fun v => defaultNames.contains v)
        let btv := if specials != [] then specials.getLastD "" else doms.headD ""
        (if createCookie then skippedCookie st eid btv else st, [])

/-- Audience URL-query predicate, inlined in the resolver (lines 535-552).
`targetVisitor` starts true and is only reassigned by the one- and
two-component query shapes. -/
def evalUrlQueryTarget (env : Env) (cfg : ExpCfg) : Bool :=
  if cfg.url_query != "" then
    let exploded := jsSplit (jsTrim cfg.url_query) "="
    if exploded.length == 1 then
      (bt_getQueryVariable env.search (exploded.getD 0 "")).truthy
    else if exploded.length == 2 then
      jsLooseEqStrQ (exploded.getD 1 "")
        (bt_getQueryVariable env.search (exploded.getD 0 ""))
    else true
  else true

/-- Device-size-class predicate, inlined in the resolver (lines 554-568). -/
def evalDeviceTarget (env : Env) (cfg : ExpCfg) (tv : Bool) : Bool :=
  if tv && cfg.target_option_device_size != "all" then
    let device :=
      if env.width > 767 then "desktop"
      else if env.width > 479 then "tablet"
      else "mobile"
    jsIncludes cfg.target_option_device_size device
  else tv

/-- Combined audience rule: URL-query predicate then device-size-class. -/
def evalTargetVisitor (env : Env) (cfg : ExpCfg) : Bool :=
  evalDeviceTarget env cfg (evalUrlQueryTarget env cfg)

/-- Targeting-evaluation trace for the resolver: one event per predicate the
source actually evaluates. -/
def targetingEffs (env : Env) (cfg : ExpCfg) : List Eff :=
  (if cfg.url_query != "" then [Eff.evalTargeting] else []) ++
    (if evalUrlQueryTarget env cfg && cfg.target_option_device_size != "all" then
      [Eff.evalTargeting]
    else [])

/-- Outcome of resolving one experiment. -/
inductive ResolveOutcome where
  | missing
  | winnerDone
  | skippedDefault
  | existing (v : String)
  | assigned (v : String)
deriving DecidableEq, Repr

/-- Variant selection for a new visitor (lines 476-489), including the extra
draw of the free-version cap.  Returns the chosen variation together with
the roll trace. -/
def pickNewVariation (env : Env) (cfg : ExpCfg) (variations : List String) :
    String × List Eff :=
  let hi : Int :=
    if cfg.test_type == "css_test" then (cfg.css_test_variations : Int)
    else (variations.length : Int)
  let r0 := env.rand 1 hi
  let effs0 := [Eff.roll 1 hi r0]
  let randVar : Int := r0 - 1
  let (randVar2, effs1) :=
    if env.is_free && variations.length > 2 then
      (env.rand 0 1, effs0 ++ [Eff.roll 0 1 (env.rand 0 1)])
    else (randVar, effs0)
  (if randVar2 < 0 then "" else variations.getD randVar2.toNat "", effs1)

/-- Resolution of one experiment: the body of the
`jQuery.each(current_exp, ...)` callback (lines 421-608).  `variations` is
`current_exp[experimentId]` and `expRedirect` is `exp_redirect[experimentId]`
(the `bt-url` attribute per variation, `none` for the stay variation and for
on-page tests).  The second, unguarded `JSON.parse` of the stored cookie on
line 514 is reproduced as such. -/
def resolveExperiment (env : Env) (st : EngineSt) (experimentId : String)
    (variations : List String) (expRedirect : String → Option String) :
    Except String (EngineSt × List Eff × ResolveOutcome) :=
  match env.cfgs experimentId with
  | none =>
    let (st1, effs) := showSkippedVisitorDefault env st experimentId false
    .ok (st1, effs, .missing)
  | some cfg =>
    if cfg.test_winner != "" then .ok (st, [], .winnerDone)
    else if env.borlabsBlocked then
      let (st1, effs) := showSkippedVisitorDefault env st experimentId false
      .ok (st1, effs, .skippedDefault)
    else if !cfg.is_current_user_track then
      let (st1, effs) := showSkippedVisitorDefault env st experimentId false
      .ok (st1, effs, .skippedDefault)
    else if cfg.test_status != "publish" then
      let (st1, effs) := showSkippedVisitorDefault env st experimentId false
      .ok (st1, effs, .skippedDefault)
    else
      match storeGet st.store ("btab_" ++ experimentId) with
      | some raw =>
        let experimentVariation :=
          match jsonParse raw with
          | some v => v.variationField
          | none => ""
        match jsonParse raw with
        | none => .error "SyntaxError: JSON.parse at resolver line 514"
        | some _ =>
          let redirect_url := (expRedirect experimentVariation).getD ""
          if redirect_url != "" && !env.is_preview then
            .ok (st, [.navigate (abRedirectUrl env redirect_url)],
              .existing experimentVariation)
          else
            .ok (st, [], .existing experimentVariation)
      | none =>
        let (experimentVariation, effs1) := pickNewVariation env cfg variations
        let tp0 := cfg.target_percentage
        let tp := if tp0.jsEqEmptyStr then TPVal.num 100 else tp0
        let targetVisitor := evalTargetVisitor env cfg
        let effs3 := effs1 ++ targetingEffs env cfg
        if !targetVisitor then
          let (st1, effsS) := showSkippedVisitorDefault env st experimentId false
          .ok (st1, effs3 ++ effsS, .skippedDefault)
        else
          let percentage := env.rand 1 100
          let effs4 := effs3 ++ [Eff.roll 1 100 percentage]
          if tpLtRoll tp percentage then
            let (st1, effsS) := showSkippedVisitorDefault env st experimentId true
            .ok (st1, effs4 ++ effsS, .skippedDefault)
          else
            if cfg.test_type != "css_test" &&
                !(env.domHasVariation experimentId experimentVariation) then
              let (st1, effsS) := showSkippedVisitorDefault env st experimentId false
              .ok (st1, effs4 ++ effsS, .skippedDefault)
            else
              let redirect_url := (expRedirect experimentVariation).getD ""
              match bt_experiment_w env st experimentId experimentVariation .visit
                  redirect_url 1 with
              | .error e => .error e
              | .ok (st1, effsW, _) =>
                .ok (st1, effs4 ++ effsW, .assigned experimentVariation)

/-- Dispatch of a countdown that has just reached 0 (lines 856-864): a key
containing `goal-` is split into experiment id and goal index and routed to
`abstGoal`, everything else to `abstConvert`.  A goal key whose third
component is not a numeric index is outside the modelled scope (the engine
only ever creates keys `goal-<eid>-<k>` with a numeric `k`); there the
`goal !== ''` guard of `abstGoal` makes the empty-component case a no-op. -/
def fireTimerIndex (env : Env) (st : EngineSt) (index : String) :
    Except String (EngineSt × List Eff) :=
  if (jsSplit index "goal-").length != 1 then
    let parts := jsSplit index "-"
    match (parts.getD 2 "").toNat? with
    | some g => abstGoal env st (parts.getD 1 "") g
    | none => .ok (st, [])
  else
    abstConvert env st index 1

/-- One key of the `Object.entries(window.abst.timer).forEach` body of
`abstOneSecond` (lines 849-866): decrement while above -1, then fire exactly
when the live value equals 0.  The `Eff.timerFire` event instruments the
taken branch. -/
def oneSecondKey (env : Env) (acc : Except String (EngineSt × List Eff))
    (index : String) : Except String (EngineSt × List Eff) :=
  match acc with
  | .error e => .error e
  | .ok (st, effs) =>
    match timerGet st.timer index with
    | none => .ok (st, effs)
    | some v =>
      let v1 := if v > -1 then v - 1 else v
      let st1 :=
        if v > -1 then { st with timer := timerSet st.timer index v1 } else st
      if v1 == 0 then
        match fireTimerIndex env st1 index with
        | .error e => .error e
        | .ok (st2, effs2) => .ok (st2, effs ++ [Eff.timerFire index] ++ effs2)
      else .ok (st1, effs)

/-- Source `abstOneSecond` (lines 846-871): iterate the snapshot of timer
keys; the decremented map is persisted each tick (state and persisted copy
are one map here). -/
def abstOneSecond (env : Env) (st : EngineSt) :
    Except String (EngineSt × List Eff) :=
  if st.timer.length > 0 then
    (st.timer.map Prod.fst).foldl (oneSecondKey env) (.ok (st, []))
  else .ok (st, [])

/-- The 1-second interval body (lines 42-56): `abstOneSecond` runs only when
the activity flag is set. -/
def timerTick (env : Env) (active : Bool) (st : EngineSt) :
    Except String (EngineSt × List Eff) :=
  if active then abstOneSecond env st else .ok (st, [])

/-- Iterate `count` active ticks, collecting the per-tick effect lists in
order. -/
def runTicks (env : Env) : Nat → EngineSt →
    Except String (EngineSt × List (List Eff))
  | 0, st => .ok (st, [])
  | k + 1, st =>
    match timerTick env true st with
    | .error e => .error e
    | .ok (st1, effs) =>
      match runTicks env k st1 with
      | .error e => .error e
      | .ok (st2, traces) => .ok (st2, effs :: traces)

/-- Source `next_page_visit_report` (lines 1211-1226): consume the
`ab-set-visit` cookie.  Any non-absent stored string (including the literal
`"false"` written below) is truthy, so the branch is entered; the
`JSON.parse` and the `bt_experiment_w` call sit inside the try block, so
both kinds of throw are swallowed; afterwards the cookie is overwritten with
the boolean false (serialised as the string "false"). -/
def next_page_visit_report (env : Env) (st : EngineSt) : EngineSt × List Eff :=
  match storeGet st.store "ab-set-visit" with
  | none => (st, [])
  | some raw =>
    let (stMid, effs) :=
      match jsonParse raw with
      | none => (st, [])
      | some v =>
        match bt_experiment_w env st v.eidField v.variationField v.typeField "" 1 with
        | .error _ => (st, [])
        | .ok (st1, effs1, _) => (st1, effs1)
    ({ stMid with store := storeSet stMid.store "ab-set-visit" (.lit false) },
      effs)

/-! ## Helper lemmas -/

theorem storeGet_set_self (s : List (String × RawVal)) (k : String) (v : RawVal) :
    storeGet (storeSet s k v) k = some v := by
  simp [storeGet, storeSet, List.find?]

theorem timerGet_singleton (idx : String) (v : Int) :
    timerGet [(idx, v)] idx = some v := by
  simp [timerGet, List.find?]

theorem timerSet_singleton (idx : String) (v w : Int) :
    timerSet [(idx, v)] idx w = [(idx, w)] := by
  simp [timerSet, List.filter]

/-- Source `abstConvert` is a strict no-op on a record that is already
converted, provided the experiment exists (the already-converted log line
reads `bt_experiments[testId].name`). -/
theorem abstConvert_noop_of_converted (env : Env) (st : EngineSt) (eid : String)
    (ov : Int) (r : BTabRecord)
    (hr : storeGet st.store ("btab_" ++ eid) = some (.record r))
    (hc : r.conversion = 1)
    (hcfg : (env.cfgs eid).isSome) :
    abstConvert env st eid ov = .ok (st, []) := by
  rcases Option.isSome_iff_exists.mp hcfg with ⟨cfg, hcfg2⟩
  unfold abstConvert
  by_cases he : eid = ""
  · simp [he]
  · simp [he, hr, jsonParse, hc, hcfg2]

/-- Source `abstGoal` is a strict no-op on a record that is already
converted (`no goals after conversion`). -/
theorem abstGoal_noop_of_converted (env : Env) (st : EngineSt) (eid : String)
    (g : Nat) (r : BTabRecord)
    (hr : storeGet st.store ("btab_" ++ eid) = some (.record r))
    (hc : r.conversion = 1) :
    abstGoal env st eid g = .ok (st, []) := by
  unfold abstGoal
  by_cases he : eid = ""
  · simp [he]
  · simp [he, hr, jsonParse, hc]

/-- With the experiment configured, `bt_experiment_w` never throws. -/
theorem bt_experiment_w_ok (env : Env) (st : EngineSt) (eid variation : String)
    (ty : EvType) (url : String) (ov : Int)
    (hcfg : (env.cfgs eid).isSome) :
    ∃ out, bt_experiment_w env st eid variation ty url ov = .ok out := by
  rcases Option.isSome_iff_exists.mp hcfg with ⟨cfg, hcfg2⟩
  unfold bt_experiment_w
  simp only [hcfg2]
  split
  · exact ⟨_, rfl⟩
  split
  · exact ⟨_, rfl⟩
  split
  · exact ⟨_, rfl⟩
  · exact ⟨_, rfl⟩

/-! ## Shared concrete fixtures -/

/-- A plain published on-page experiment with no winner, no audience rule
and the default (empty-string) target percentage. -/
def cfgFix : ExpCfg :=
  { name := "t", test_winner := "", test_type := "on_page",
    test_status := "publish", is_current_user_track := true,
    target_percentage := .str "", url_query := "",
    target_option_device_size := "all", conversion_page := "selector",
    conversion_time := 0, css_test_variations := 0,
    full_page_default_page := "", page_variations := [], goals := [] }

/-- Empty engine state. -/
def stEmpty : EngineSt := { store := [], timer := [] }

/-- Concrete page environment hosting experiment `e1` with `cfgFix`. -/
def envFix : Env :=
  { cfgs := fun e => if e == "e1" then some cfgFix else none,
    is_preview := false, is_free := false, post_id := "p7", search := "",
    locHash := "", hasUuid := true, width := 1000, borlabsBlocked := false,
    domVariations := fun _ => ["Original", "B"],
    domHasVariation := fun _ _ => true,
    rand := fun _ _ => 1 }

/-! ## Claim C10 -/

/-- C10: every call to `bt_experiment_w` in which `eid` is empty, or
`variation` is empty, or `variation` is the sentinel `_bt_skip_`, or preview
mode is on, returns immediately: no event is reported, no assignment record
is written, and no timer is registered (state and effect trace are
untouched). -/
theorem c10_skip_guard_is_inert (env : Env) (st : EngineSt)
    (eid variation : String) (ty : EvType) (url : String) (ov : Int)
    (h : variation = "_bt_skip_" ∨ env.is_preview = true ∨ eid = "" ∨
      variation = "") :
    bt_experiment_w env st eid variation ty url ov = .ok (st, [], .ignored) := by
  unfold bt_experiment_w
  rcases h with h | h | h | h <;> simp [h]

/-- Witness for C10 at a concrete input (empty experiment id). -/
theorem c10_skip_guard_is_inert_witness :
    (("" : String) = "_bt_skip_" ∨ envFix.is_preview = true ∨ ("A" : String) = "" ∨
      ("" : String) = "") ∧
    bt_experiment_w envFix stEmpty "A" "" .visit "u" 1 =
      .ok (stEmpty, [], .ignored) :=
  ⟨Or.inr (Or.inr (Or.inr rfl)),
    c10_skip_guard_is_inert envFix stEmpty "A" "" .visit "u" 1
      (Or.inr (Or.inr (Or.inr rfl)))⟩

/-! ## Claim C1 -/

/-- Record of experiment `e1` with goal 1 already completed and the
converted flag still 0. -/
def recC1 : BTabRecord :=
  { eid := "e1", variation := "A", conversion := 0,
    goals := some [none, some 1], skipped := false }

/-- State holding `recC1` under the `btab_e1` cookie. -/
def stC1 : EngineSt := { store := [("btab_e1", .record recC1)], timer := [] }

/-- The duplicate event reported by the replayed goal call below. -/
def evC1 : EventData :=
  { eid := "e1", variation := "A", type := .goal 1, location := "p7",
    orderValue := 1 }

/-- C1 (refuting evaluation): on a record whose goalsCompleted set already
contains goal 1 and whose converted flag is 0, `abstGoal(e1, 1)` is NOT a
no-op: the `goals[goal] !== 0` guard on line 718 is satisfied by the stored
value 1, so a second goal event is reported (the persisted record itself is
rewritten unchanged). -/
theorem c1_goal_replay_emits_second_event :
    abstGoal envFix stC1 "e1" 1 = .ok (stC1, [.report evC1]) ∧
    storeGet stC1.store "btab_e1" = some (.record recC1) := by
  constructor <;> rfl

/-! ## Claim C8 -/

/-- State holding a malformed (non-JSON) string under `btab_e1`. -/
def stC8 : EngineSt := { store := [("btab_e1", .corrupt "oops")], timer := [] }

/-- C8 (refuting evaluation): with a stored assignment value that is not
valid JSON, resolution of that experiment throws.  The first `JSON.parse`
(line 494) is guarded, but line 514 re-parses the same raw cookie without a
try/catch, so a SyntaxError escapes the per-experiment callback and aborts
the `jQuery.each` loop over the remaining experiments. -/
theorem c8_corrupt_record_throws :
    resolveExperiment envFix stC8 "e1" ["A", "B"] (fun _ => none) =
      .error "SyntaxError: JSON.parse at resolver line 514" := by
  rfl

/-! ## Claim C9 -/

/-- The record content `skippedCookie` serialises for a skipped visitor. -/
def skipRec (eid btv : String) : BTabRecord :=
  { eid := eid, variation := btv, conversion := 1, goals := none,
    skipped := true }

/-- C9: the skip record written by `skippedCookie` stores `conversion = 1`
(besides `skipped = 1`), so on a skipped visitor every later `abstConvert`
and `abstGoal` call for that experiment is a no-op: no event is emitted and
the persisted state is unchanged. -/
theorem c9_skip_record_blocks_all_events (env : Env) (st : EngineSt)
    (eid btv : String) (g : Nat) (ov : Int)
    (hcfg : (env.cfgs eid).isSome) :
    storeGet (skippedCookie st eid btv).store ("btab_" ++ eid) =
      some (.record (skipRec eid btv)) ∧
    abstConvert env (skippedCookie st eid btv) eid ov =
      .ok (skippedCookie st eid btv, []) ∧
    abstGoal env (skippedCookie st eid btv) eid g =
      .ok (skippedCookie st eid btv, []) := by
  refine ⟨storeGet_set_self _ _ _, ?_, ?_⟩
  · exact abstConvert_noop_of_converted env _ eid ov _
      (storeGet_set_self _ _ _) rfl hcfg
  · exact abstGoal_noop_of_converted env _ eid g _
      (storeGet_set_self _ _ _) rfl

/-- Witness for C9 at a concrete input. -/
theorem c9_skip_record_blocks_all_events_witness :
    (envFix.cfgs "e1").isSome = true ∧
    (storeGet (skippedCookie stEmpty "e1" "Original").store "btab_e1" =
      some (.record (skipRec "e1" "Original")) ∧
    abstConvert envFix (skippedCookie stEmpty "e1" "Original") "e1" 1 =
      .ok (skippedCookie stEmpty "e1" "Original", []) ∧
    abstGoal envFix (skippedCookie stEmpty "e1" "Original") "e1" 2 =
      .ok (skippedCookie stEmpty "e1" "Original", [])) :=
  ⟨rfl, c9_skip_record_blocks_all_events envFix stEmpty "e1" "Original" 2 1 rfl⟩

/-! ## Claim C2 -/

/-- C2: conversion is terminal.  On any record with `conversion = 1` both
`abstConvert` and `abstGoal` (for every goal index) leave the state
untouched and emit nothing; and on a fresh record (`conversion = 0`,
`goals = []`) calling convert and then goal 1 ends with `conversion = 1`
and the goals list still empty. -/
theorem c2_conversion_is_terminal (env : Env) (st stf : EngineSt)
    (eid : String) (g : Nat) (ov : Int) (r rf : BTabRecord)
    (hr : storeGet st.store ("btab_" ++ eid) = some (.record r))
    (hc : r.conversion = 1)
    (hcfg : (env.cfgs eid).isSome)
    (he : eid ≠ "")
    (hf : storeGet stf.store ("btab_" ++ eid) = some (.record rf))
    (hfc : rf.conversion = 0)
    (hfg : rf.goals = some []) :
    (abstConvert env st eid ov = .ok (st, []) ∧
      abstGoal env st eid g = .ok (st, [])) ∧
    (∃ st1 effs1, abstConvert env stf eid ov = .ok (st1, effs1) ∧
      storeGet st1.store ("btab_" ++ eid) =
        some (.record { rf with conversion := 1 }) ∧
      ({ rf with conversion := 1 } : BTabRecord).goals = some [] ∧
      abstGoal env st1 eid 1 = .ok (st1, [])) := by
  refine ⟨⟨abstConvert_noop_of_converted env st eid ov r hr hc hcfg,
    abstGoal_noop_of_converted env st eid g r hr hc⟩, ?_⟩
  rcases bt_experiment_w_ok env stf eid rf.variation .conversion "" ov hcfg
    with ⟨⟨stw, effw, outw⟩, hw⟩
  have hconv : abstConvert env stf eid ov =
      .ok ({ stw with
               store := storeSet stw.store ("btab_" ++ eid)
                          (.record { rf with conversion := 1 }) },
        effw) := by
    unfold abstConvert
    simp [he, hf, jsonParse, hfc, hw]
  exact ⟨_, effw, hconv, storeGet_set_self _ _ _, hfg,
    abstGoal_noop_of_converted env _ eid 1 _ (storeGet_set_self _ _ _) rfl⟩

/-- An already-converted record for experiment `e1`. -/
def recConv : BTabRecord :=
  { eid := "e1", variation := "A", conversion := 1, goals := some [],
    skipped := false }

/-- A fresh (unconverted, no goals) record for experiment `e1`. -/
def recFresh : BTabRecord :=
  { eid := "e1", variation := "A", conversion := 0, goals := some [],
    skipped := false }

/-- State holding the converted record. -/
def stConv : EngineSt := { store := [("btab_e1", .record recConv)], timer := [] }

/-- State holding the fresh record. -/
def stFresh : EngineSt := { store := [("btab_e1", .record recFresh)], timer := [] }

/-- Witness for C2 at concrete inputs: a converted record for part one and
a fresh record for part two. -/
theorem c2_conversion_is_terminal_witness :
    (storeGet stConv.store "btab_e1" = some (.record recConv) ∧
      recConv.conversion = 1 ∧ recFresh.conversion = 0) ∧
    ((abstConvert envFix stConv "e1" 1 = .ok (stConv, []) ∧
      abstGoal envFix stConv "e1" 3 = .ok (stConv, [])) ∧
    (∃ st1 effs1, abstConvert envFix stFresh "e1" 1 = .ok (st1, effs1) ∧
      storeGet st1.store "btab_e1" =
        some (.record { recFresh with conversion := 1 }) ∧
      ({ recFresh with conversion := 1 } : BTabRecord).goals = some [] ∧
      abstGoal envFix st1 "e1" 1 = .ok (st1, []))) :=
  ⟨⟨rfl, rfl, rfl⟩, c2_conversion_is_terminal envFix stConv stFresh
    "e1" 3 1 recConv recFresh rfl rfl rfl (by decide) rfl rfl rfl⟩

/-! ## Claim C3 -/

/-- Environment `envFix` with the two random draws of a fresh resolution
exposed as parameters: `rP` is returned for the percentage roll
(`getRandomInt(1,100)`) and `rV` for the variation roll. -/
def envPair (rV rP : Int) : Env :=
  { envFix with rand := fun _ hi => if hi == 100 then rP else rV }

/-- C3: assignment is idempotent.  Part one: whenever a well-formed
assignment record is stored for a published, tracked, consent-cleared,
winner-less experiment, resolution returns the record's `variation`
verbatim, leaves the state untouched, and the effect trace contains no
random roll and no audience-targeting evaluation.  Part two: resolving a
fresh visitor and then resolving again on the persisted state returns the
same variation both times. -/
theorem c3_assignment_idempotent :
    (∀ (env : Env) (st : EngineSt) (eid : String) (vars : List String)
      (er : String → Option String) (cfg : ExpCfg) (r : BTabRecord),
      env.cfgs eid = some cfg → cfg.test_winner = "" →
      env.borlabsBlocked = false → cfg.is_current_user_track = true →
      cfg.test_status = "publish" →
      storeGet st.store ("btab_" ++ eid) = some (.record r) →
      ∃ effs, resolveExperiment env st eid vars er =
          .ok (st, effs, .existing r.variation) ∧
        effs.all (fun e => !e.isSampling) = true) ∧
    (∀ rV rP : Int, 1 ≤ rV → rV ≤ 2 → 1 ≤ rP → rP ≤ 100 →
      ∃ st1 effs1 effs2 v,
        resolveExperiment (envPair rV rP) stEmpty "e1" ["A", "B"]
          (fun _ => none) = .ok (st1, effs1, .assigned v) ∧
        resolveExperiment (envPair rV rP) st1 "e1" ["A", "B"]
          (fun _ => none) = .ok (st1, effs2, .existing v)) := by
  constructor
  · intro env st eid vars er cfg r hcfg hwin hb htrk hst hrec
    unfold resolveExperiment
    rw [hcfg]
    simp [hwin, hb, htrk, hst, hrec, jsonParse, RawVal.variationField]
    split
    · exact ⟨_, rfl, by simp [Eff.isSampling]⟩
    · exact ⟨_, rfl, by simp⟩
  · intro rV rP h1 h2 h3 h4
    interval_cases rV <;> interval_cases rP <;> exact ⟨_, _, _, _, rfl, rfl⟩

/-- Witness for C3: concrete instances of both parts. -/
theorem c3_assignment_idempotent_witness :
    (envFix.cfgs "e1" = some cfgFix ∧
      storeGet stFresh.store "btab_e1" = some (.record recFresh)) ∧
    ((∃ effs, resolveExperiment envFix stFresh "e1" ["A", "B"]
          (fun _ => none) = .ok (stFresh, effs, .existing recFresh.variation) ∧
        effs.all (fun e => !e.isSampling) = true) ∧
    (∃ st1 effs1 effs2 v,
        resolveExperiment (envPair 2 100) stEmpty "e1" ["A", "B"]
          (fun _ => none) = .ok (st1, effs1, .assigned v) ∧
        resolveExperiment (envPair 2 100) st1 "e1" ["A", "B"]
          (fun _ => none) = .ok (st1, effs2, .existing v))) :=
  ⟨⟨rfl, rfl⟩,
    (c3_assignment_idempotent).1 envFix stFresh "e1" ["A", "B"] (fun _ => none)
      cfgFix recFresh rfl rfl rfl rfl rfl rfl,
    (c3_assignment_idempotent).2 2 100 (by decide) (by decide) (by decide)
      (by decide)⟩

/-! ## Claim C4 -/

/-- Published, tracked, winner-less experiment configured with
`target_percentage` equal to the number 0. -/
def cfg4 : ExpCfg := { cfgFix with target_percentage := .num 0 }

/-- Environment hosting `cfg4` under `e1`, with the two rolls exposed. -/
def env4 (rV rP : Int) : Env :=
  { envFix with
      cfgs := fun e => if e == "e1" then some cfg4 else none,
      rand := fun _ hi => if hi == 100 then rP else rV }

/-- C4 (refuting evaluation): with `targetPercentage` the number 0 and a new
visitor, EVERY value of the percentage roll 1..100 assigns a real variation
and writes a non-skip record.  The reason is line 532: the loose comparison
`targetPercentage == ''` is true for the number 0 (ToNumber of the empty
string is 0), so the gate is silently reset to 100 and `100 < roll` never
holds. -/
theorem c4_percentage_zero_still_assigns (rV rP : Int)
    (h1 : 1 ≤ rV) (h2 : rV ≤ 2) (h3 : 1 ≤ rP) (h4 : rP ≤ 100) :
    ∃ st1 effs v r,
      resolveExperiment (env4 rV rP) stEmpty "e1" ["A", "B"] (fun _ => none) =
        .ok (st1, effs, .assigned v) ∧
      (v = "A" ∨ v = "B") ∧
      storeGet st1.store "btab_e1" = some (.record r) ∧
      r.skipped = false ∧ r.conversion = 0 ∧ r.variation = v := by
  interval_cases rV <;> interval_cases rP <;>
    exact ⟨_, _, _, _, rfl, by decide, rfl, rfl, rfl, rfl⟩

/-- Witness for C4 at the extreme roll 100, which the claim says must be
skipped under a 0 target percentage. -/
theorem c4_percentage_zero_still_assigns_witness :
    ((1 : Int) ≤ 1 ∧ (1 : Int) ≤ 100) ∧
    (∃ st1 effs v r,
      resolveExperiment (env4 1 100) stEmpty "e1" ["A", "B"] (fun _ => none) =
        .ok (st1, effs, .assigned v) ∧
      (v = "A" ∨ v = "B") ∧
      storeGet st1.store "btab_e1" = some (.record r) ∧
      r.skipped = false ∧ r.conversion = 0 ∧ r.variation = v) :=
  ⟨⟨by decide, by decide⟩,
    c4_percentage_zero_still_assigns 1 100 (by decide) (by decide) (by decide)
      (by decide)⟩

/-! ## Claim C5 -/

/-- With no winner and `createCookie = false`,
`showSkippedVisitorDefault` only performs presentation work: state and
effect trace are untouched. -/
theorem showSkipped_nocookie_nowinner (env : Env) (st : EngineSt)
    (eid : String) (cfg : ExpCfg)
    (hcfg : env.cfgs eid = some cfg) (hwin : cfg.test_winner = "") :
    showSkippedVisitorDefault env st eid false = (st, []) := by
  unfold showSkippedVisitorDefault
  rw [hcfg]
  simp [hwin]

/-- C5 (amended): when the audience rule evaluates to not targeted for a
new visitor of a published, tracked, winner-less experiment, resolution
shows the skipped default and returns skipped WITHOUT writing any record:
the source calls `showSkippedVisitorDefault(eid)` without the
`createCookie` flag on the targeting-failure branch (line 573), so
`skippedCookie` never runs there (only the percentage gate passes `true`,
line 580). -/
theorem c5_targeting_failure_writes_no_record (env : Env) (st : EngineSt)
    (eid : String) (vars : List String) (er : String → Option String)
    (cfg : ExpCfg)
    (hcfg : env.cfgs eid = some cfg)
    (hwin : cfg.test_winner = "")
    (hb : env.borlabsBlocked = false)
    (htrk : cfg.is_current_user_track = true)
    (hst : cfg.test_status = "publish")
    (hrec : storeGet st.store ("btab_" ++ eid) = none)
    (htv : evalTargetVisitor env cfg = false) :
    ∃ effs, resolveExperiment env st eid vars er =
      .ok (st, effs, .skippedDefault) := by
  unfold resolveExperiment
  rw [hcfg]
  simp [hwin, hb, htrk, hst, hrec, htv,
    showSkipped_nocookie_nowinner env st eid cfg hcfg hwin]

/-- Configuration whose audience rule requires the query `ref=x`. -/
def cfg5 : ExpCfg := { cfgFix with url_query := "ref=x" }

/-- Page environment where the current query string carries `ref=y`, so the
audience rule of `cfg5` fails. -/
def env5 : Env :=
  { envFix with
      cfgs := fun e => if e == "e1" then some cfg5 else none,
      search := "?ref=y" }

/-- C5 counterexample: at this concrete input the audience rule evaluates
to not targeted, resolution returns skipped, and the final state still has
NO record stored for the experiment, contradicting the claim that a skip
record pinned to the skipped default is written to the store. -/
theorem c5_counterexample_no_skip_record :
    evalTargetVisitor env5 cfg5 = false ∧
    resolveExperiment env5 stEmpty "e1" ["A", "B"] (fun _ => none) =
      .ok (stEmpty, [.roll 1 2 1, .evalTargeting], .skippedDefault) ∧
    storeGet stEmpty.store "btab_e1" = none := by
  refine ⟨by decide, by rfl, rfl⟩

/-- Witness for the amended C5 theorem at the same concrete input. -/
theorem c5_targeting_failure_writes_no_record_witness :
    (env5.cfgs "e1" = some cfg5 ∧ evalTargetVisitor env5 cfg5 = false) ∧
    (∃ effs, resolveExperiment env5 stEmpty "e1" ["A", "B"] (fun _ => none) =
      .ok (stEmpty, effs, .skippedDefault)) :=
  ⟨⟨rfl, by decide⟩,
    c5_targeting_failure_writes_no_record env5 stEmpty "e1" ["A", "B"]
      (fun _ => none) cfg5 rfl rfl rfl rfl rfl rfl (by decide)⟩

/-! ## Claim C6 -/

/-- State after `bt_experiment_w` has parked a pending visit. -/
def pendingWrite (st : EngineSt) (pv : PendingVisit) : EngineSt :=
  { st with store := storeSet st.store "ab-set-visit" (.pending pv) }

/-- A consumed `ab-set-visit` cookie holds the literal false; a further
consumption attempt parses it, reaches `bt_experiment_w` with undefined
arguments, and is rejected by its guard: no report, and the key is simply
rewritten with false again. -/
theorem consume_false_noop (env : Env) (s : EngineSt)
    (h : storeGet s.store "ab-set-visit" = some (.lit false)) :
    next_page_visit_report env s =
      ({ s with store := storeSet s.store "ab-set-visit" (.lit false) }, []) := by
  unfold next_page_visit_report
  rw [h]
  simp [jsonParse, RawVal.eidField, RawVal.variationField, RawVal.typeField,
    bt_experiment_w]

/-- C6: redirect visit boundary.  A full-page visit with a non-stay
destination writes the pending-visit record to the store (and only then
navigates); consuming it on the next load produces exactly one visit
report and overwrites the `ab-set-visit` key with the JSON literal false,
after which no pending record is decodable from the store; a second
consumption attempt produces no report at all. -/
theorem c6_redirect_visit_boundary (env : Env) (st : EngineSt)
    (eid v u : String) (ov : Int) (cfg : ExpCfg)
    (he : eid ≠ "") (hv1 : v ≠ "") (hv2 : v ≠ "_bt_skip_")
    (hp : env.is_preview = false) (hu : u ≠ "")
    (hcfg : env.cfgs eid = some cfg)
    (hfp : cfg.conversion_page ≠ "fingerprint") :
    bt_experiment_w env st eid v .visit u ov =
      .ok (pendingWrite st (PendingVisit.mk eid v .visit u ov),
        [.navigate (abRedirectUrl env u)], .navigated) ∧
    storeGet (pendingWrite st (PendingVisit.mk eid v .visit u ov)).store
      "ab-set-visit" = some (.pending (PendingVisit.mk eid v .visit u ov)) ∧
    ∃ st2, next_page_visit_report env
        (pendingWrite st (PendingVisit.mk eid v .visit u ov)) =
        (st2, [.report (EventData.mk eid v .visit env.post_id 1)]) ∧
      storeGet st2.store "ab-set-visit" = some (.lit false) ∧
      (∀ p : PendingVisit,
        storeGet st2.store "ab-set-visit" ≠ some (.pending p)) ∧
      ∃ st3, next_page_visit_report env st2 = (st3, []) := by
  have hwrite : bt_experiment_w env st eid v .visit u ov =
      .ok (pendingWrite st (PendingVisit.mk eid v .visit u ov),
        [.navigate (abRedirectUrl env u)], .navigated) := by
    unfold bt_experiment_w pendingWrite
    simp [he, hv1, hv2, hp, hu]
  have hlog : ∀ s : EngineSt, ∃ t2,
      bt_experiment_w env s eid v .visit "" 1 =
        .ok (EngineSt.mk (storeSet s.store ("btab_" ++ eid)
            (.record (BTabRecord.mk eid v 0 (some []) false))) t2,
          [.report (EventData.mk eid v .visit env.post_id 1)], .logged) := by
    intro s
    unfold bt_experiment_w
    simp [he, hv1, hv2, hp, hcfg, hfp]
  obtain ⟨t2, hlog2⟩ :=
    hlog (pendingWrite st (PendingVisit.mk eid v .visit u ov))
  have hmid : storeGet
      (pendingWrite st (PendingVisit.mk eid v .visit u ov)).store
      "ab-set-visit" = some (.pending (PendingVisit.mk eid v .visit u ov)) :=
    storeGet_set_self _ _ _
  have hconsume : next_page_visit_report env
      (pendingWrite st (PendingVisit.mk eid v .visit u ov)) =
      (EngineSt.mk (storeSet (storeSet
          (pendingWrite st (PendingVisit.mk eid v .visit u ov)).store
          ("btab_" ++ eid) (.record (BTabRecord.mk eid v 0 (some []) false)))
          "ab-set-visit" (.lit false)) t2,
        [.report (EventData.mk eid v .visit env.post_id 1)]) := by
    unfold next_page_visit_report
    rw [hmid]
    simp [jsonParse, RawVal.eidField, RawVal.variationField, RawVal.typeField,
      hlog2]
  refine ⟨hwrite, hmid, ?_⟩
  refine ⟨EngineSt.mk (storeSet (storeSet
      (pendingWrite st (PendingVisit.mk eid v .visit u ov)).store
      ("btab_" ++ eid) (.record (BTabRecord.mk eid v 0 (some []) false)))
      "ab-set-visit" (.lit false)) t2,
    hconsume, storeGet_set_self _ _ _, ?_, ?_⟩
  · intro p
    rw [storeGet_set_self]
    simp
  · exact ⟨_, consume_false_noop env _ (storeGet_set_self _ _ _)⟩

/-- Witness for C6 at a concrete full-page redirect. -/
theorem c6_redirect_visit_boundary_witness :
    (("e1" : String) ≠ "" ∧ ("B" : String) ≠ "" ∧ ("dest" : String) ≠ "" ∧
      envFix.cfgs "e1" = some cfgFix ∧
      cfgFix.conversion_page ≠ "fingerprint") ∧
    (bt_experiment_w envFix stEmpty "e1" "B" .visit "dest" 1 =
      .ok (pendingWrite stEmpty (PendingVisit.mk "e1" "B" .visit "dest" 1),
        [.navigate (abRedirectUrl envFix "dest")], .navigated) ∧
    storeGet (pendingWrite stEmpty
        (PendingVisit.mk "e1" "B" .visit "dest" 1)).store "ab-set-visit" =
      some (.pending (PendingVisit.mk "e1" "B" .visit "dest" 1)) ∧
    ∃ st2, next_page_visit_report envFix
        (pendingWrite stEmpty (PendingVisit.mk "e1" "B" .visit "dest" 1)) =
        (st2, [.report (EventData.mk "e1" "B" .visit "p7" 1)]) ∧
      storeGet st2.store "ab-set-visit" = some (.lit false) ∧
      (∀ p : PendingVisit,
        storeGet st2.store "ab-set-visit" ≠ some (.pending p)) ∧
      ∃ st3, next_page_visit_report envFix st2 = (st3, [])) :=
  ⟨⟨by decide, by decide, by decide, rfl, by decide⟩,
    c6_redirect_visit_boundary envFix stEmpty "e1" "B" "dest" 1 cfgFix
      (by decide) (by decide) (by decide) rfl (by decide) rfl (by decide)⟩

/-! ## Claim C7 -/

/-- A tick on a singleton timer map with a value above 1 decrements it and
fires nothing. -/
theorem tick_singleton_gt1 (env : Env) (s : EngineSt) (idx : String)
    (v w : Int) (hs : s.timer = [(idx, v)]) (hv : 1 < v) (hw : w = v - 1) :
    timerTick env true s = .ok ({ s with timer := [(idx, w)] }, []) := by
  have h1 : (-1 : Int) < v := by omega
  have h2 : ((v - 1 : Int) == 0) = false := by
    simp only [beq_eq_false_iff_ne, ne_eq]
    omega
  unfold timerTick abstOneSecond
  simp [hs, oneSecondKey, timerGet_singleton, timerSet_singleton, h1, h2, hw]

/-- A tick on a singleton timer at 0 clamps it to -1 and fires nothing. -/
theorem tick_singleton_zero (env : Env) (s : EngineSt) (idx : String)
    (hs : s.timer = [(idx, 0)]) :
    timerTick env true s = .ok ({ s with timer := [(idx, -1)] }, []) := by
  unfold timerTick abstOneSecond
  simp [hs, oneSecondKey, timerGet_singleton, timerSet_singleton]

/-- A tick on a singleton timer already at -1 changes nothing and fires
nothing: the floor is never decremented further. -/
theorem tick_singleton_negone (env : Env) (s : EngineSt) (idx : String)
    (hs : s.timer = [(idx, -1)]) :
    timerTick env true s = .ok (s, []) := by
  unfold timerTick abstOneSecond
  simp [hs, oneSecondKey, timerGet_singleton]

/-- A tick on a singleton conversion timer at 1 decrements it to 0 and
fires the conversion exactly there: the countdown trigger is recorded and
`abstConvert` reports one conversion event and persists the converted
record. -/
theorem tick_singleton_fire (env : Env) (s : EngineSt) (idx : String)
    (r : BTabRecord) (cfg : ExpCfg)
    (hs : s.timer = [(idx, 1)])
    (hgoal : (jsSplit idx "goal-").length = 1)
    (hidx : idx ≠ "")
    (hrec : storeGet s.store ("btab_" ++ idx) = some (.record r))
    (hconv : r.conversion = 0)
    (hv1 : r.variation ≠ "") (hv2 : r.variation ≠ "_bt_skip_")
    (hp : env.is_preview = false)
    (hcfg : env.cfgs idx = some cfg)
    (hfp : cfg.conversion_page ≠ "fingerprint") :
    timerTick env true s = .ok (EngineSt.mk
        (storeSet (storeSet s.store ("btab_" ++ idx)
            (.record (BTabRecord.mk idx r.variation 1 (some []) false)))
          ("btab_" ++ idx) (.record { r with conversion := 1 }))
        [(idx, 0)],
      [Eff.timerFire idx,
        Eff.report (EventData.mk idx r.variation .conversion env.post_id 1)]) := by
  unfold timerTick abstOneSecond
  simp [hs, oneSecondKey, timerGet_singleton, timerSet_singleton,
    fireTimerIndex, hgoal, abstConvert, hidx, hrec, jsonParse, hconv,
    bt_experiment_w, hv1, hv2, hp, hcfg, hfp]

/-- Run `a + b` ticks by running `a` ticks and then `b` ticks. -/
theorem runTicks_add (env : Env) (a b : Nat) :
    ∀ st : EngineSt, runTicks env (a + b) st =
      match runTicks env a st with
      | .error e => .error e
      | .ok (st1, t1) =>
        match runTicks env b st1 with
        | .error e => .error e
        | .ok (st2, t2) => .ok (st2, t1 ++ t2) := by
  induction a with
  | zero =>
    intro st
    rw [Nat.zero_add]
    rcases h : runTicks env b st with e | ⟨st2, t2⟩ <;> simp [runTicks, h]
  | succ a ih =>
    intro st
    have hadd : a + 1 + b = (a + b) + 1 := by omega
    rw [hadd]
    simp only [runTicks]
    rcases h : timerTick env true st with e | ⟨st1, effs⟩
    · simp
    · simp only []
      rw [ih st1]
      rcases h2 : runTicks env a st1 with e | ⟨st2, t2⟩
      · simp
      · rcases h3 : runTicks env b st2 with e | ⟨st3, t3⟩ <;> simp [h3]

/-- Counting down from `k + 1` for `k` active ticks reaches 1 without a
single firing and without touching the store. -/
theorem runTicks_countdown (env : Env) (idx : String) :
    ∀ k : Nat, ∀ s : EngineSt, s.timer = [(idx, (k : Int) + 1)] →
      runTicks env k s =
        .ok ({ s with timer := [(idx, 1)] }, List.replicate k []) := by
  intro k
  induction k with
  | zero =>
    intro s hs
    simp only [Nat.cast_zero, zero_add] at hs
    cases s with
    | mk sstore stimer =>
      simp_all [runTicks]
  | succ k ih =>
    intro s hs
    have hs2 : s.timer = [(idx, ((k : Int) + 1) + 1)] := by
      rw [hs]
      norm_num
    have htick := tick_singleton_gt1 env s idx ((k : Int) + 1 + 1)
      ((k : Int) + 1) hs2 (by omega) (by omega)
    have hs1 : ({ s with timer := [(idx, (k : Int) + 1)] } : EngineSt).timer =
        [(idx, (k : Int) + 1)] := rfl
    simp only [runTicks, htick]
    rw [ih _ hs1]
    simp [List.replicate_succ]

/-- A singleton timer resting at -1 never moves and never fires again, for
any number of further active ticks. -/
theorem runTicks_stable (env : Env) (idx : String) :
    ∀ k : Nat, ∀ s : EngineSt, s.timer = [(idx, -1)] →
      runTicks env k s = .ok (s, List.replicate k []) := by
  intro k
  induction k with
  | zero =>
    intro s hs
    simp [runTicks]
  | succ k ih =>
    intro s hs
    simp only [runTicks, tick_singleton_negone env s idx hs]
    rw [ih s hs]
    simp [List.replicate_succ]

/-- Counting down from `k + 1` fires exactly once, on the tick on which the
value reaches 0. -/
theorem runTicks_until_fire (env : Env) (idx : String) (r : BTabRecord)
    (cfg : ExpCfg)
    (hgoal : (jsSplit idx "goal-").length = 1) (hidx : idx ≠ "")
    (hconv : r.conversion = 0) (hv1 : r.variation ≠ "")
    (hv2 : r.variation ≠ "_bt_skip_") (hp : env.is_preview = false)
    (hcfg : env.cfgs idx = some cfg)
    (hfp : cfg.conversion_page ≠ "fingerprint") :
    ∀ k : Nat, ∀ s : EngineSt, s.timer = [(idx, (k : Int) + 1)] →
      storeGet s.store ("btab_" ++ idx) = some (.record r) →
      ∃ s2, runTicks env (k + 1) s =
          .ok (s2, List.replicate k [] ++
            [[Eff.timerFire idx,
              Eff.report (EventData.mk idx r.variation .conversion
                env.post_id 1)]]) ∧
        s2.timer = [(idx, 0)] ∧
        storeGet s2.store ("btab_" ++ idx) =
          some (.record { r with conversion := 1 }) := by
  intro k
  induction k with
  | zero =>
    intro s hs hrec
    simp only [Nat.cast_zero, zero_add] at hs
    have htick := tick_singleton_fire env s idx r cfg hs hgoal hidx hrec
      hconv hv1 hv2 hp hcfg hfp
    refine ⟨EngineSt.mk (storeSet (storeSet s.store ("btab_" ++ idx)
        (.record (BTabRecord.mk idx r.variation 1 (some []) false)))
        ("btab_" ++ idx) (.record { r with conversion := 1 })) [(idx, 0)],
      ?_, rfl, storeGet_set_self _ _ _⟩
    show (match timerTick env true s with
      | Except.error e => Except.error e
      | Except.ok (st1, effs) =>
        match runTicks env 0 st1 with
        | Except.error e => Except.error e
        | Except.ok (st2, traces) => Except.ok (st2, effs :: traces)) = _
    simp only [htick, runTicks]
    simp
  | succ k ih =>
    intro s hs hrec
    have hs2 : s.timer = [(idx, ((k : Int) + 1) + 1)] := by
      rw [hs]
      norm_num
    have htick := tick_singleton_gt1 env s idx ((k : Int) + 1 + 1)
      ((k : Int) + 1) hs2 (by omega) (by omega)
    obtain ⟨s2, hrun, ht2, hst2⟩ := ih { s with timer := [(idx, (k : Int) + 1)] }
      rfl hrec
    refine ⟨s2, ?_, ht2, hst2⟩
    show (match timerTick env true s with
      | Except.error e => Except.error e
      | Except.ok (st1, effs) =>
        match runTicks env (k + 1) st1 with
        | Except.error e => Except.error e
        | Except.ok (st2, traces) => Except.ok (st2, effs :: traces)) = _
    simp only [htick, hrun]
    simp [List.replicate_succ]

/-- C7: timer exactness.  Ticks decrement only while active (an inactive
tick is a strict no-op); a conversion countdown armed at `n ≥ 1` is
decremented once per active tick, fires exactly once — on the exact tick at
which the value reaches 0 — and then rests at the floor -1, never firing
again and never being decremented further on any number of later ticks. -/
theorem c7_timer_exactness (env : Env) (st : EngineSt) (idx : String)
    (n : Nat) (r : BTabRecord) (cfg : ExpCfg)
    (hn : 1 ≤ n)
    (htimer : st.timer = [(idx, (n : Int))])
    (hgoal : (jsSplit idx "goal-").length = 1)
    (hidx : idx ≠ "")
    (hrec : storeGet st.store ("btab_" ++ idx) = some (.record r))
    (hconv : r.conversion = 0)
    (hv1 : r.variation ≠ "") (hv2 : r.variation ≠ "_bt_skip_")
    (hp : env.is_preview = false)
    (hcfg : env.cfgs idx = some cfg)
    (hfp : cfg.conversion_page ≠ "fingerprint") :
    (∀ s : EngineSt, timerTick env false s = .ok (s, [])) ∧
    (runTicks env (n - 1) st =
      .ok ({ st with timer := [(idx, 1)] }, List.replicate (n - 1) [])) ∧
    (∃ stFire, runTicks env n st =
        .ok (stFire, List.replicate (n - 1) [] ++
          [[Eff.timerFire idx,
            Eff.report (EventData.mk idx r.variation .conversion
              env.post_id 1)]]) ∧
      stFire.timer = [(idx, 0)] ∧
      storeGet stFire.store ("btab_" ++ idx) =
        some (.record { r with conversion := 1 })) ∧
    (∃ stAfter, runTicks env (n + 1) st =
        .ok (stAfter, (List.replicate (n - 1) [] ++
          [[Eff.timerFire idx,
            Eff.report (EventData.mk idx r.variation .conversion
              env.post_id 1)]]) ++ [[]]) ∧
      stAfter.timer = [(idx, -1)] ∧
      ∀ k : Nat, runTicks env k stAfter =
        .ok (stAfter, List.replicate k [])) := by
  have hcast : ((n : Int)) = ((n - 1 : Nat) : Int) + 1 := by omega
  have htimer2 : st.timer = [(idx, ((n - 1 : Nat) : Int) + 1)] := by
    rw [htimer, hcast]
  obtain ⟨s2, h32, h33, h34⟩ := runTicks_until_fire env idx r cfg hgoal hidx
    hconv hv1 hv2 hp hcfg hfp (n - 1) st htimer2 hrec
  have hn1 : n - 1 + 1 = n := by omega
  rw [hn1] at h32
  have htick0 := tick_singleton_zero env s2 idx h33
  have hrun1 : runTicks env 1 s2 =
      .ok ({ s2 with timer := [(idx, -1)] }, [[]]) := by
    show (match timerTick env true s2 with
      | Except.error e => Except.error e
      | Except.ok (st1, effs) =>
        match runTicks env 0 st1 with
        | Except.error e => Except.error e
        | Except.ok (st2, traces) => Except.ok (st2, effs :: traces)) = _
    simp only [htick0, runTicks]
  have h4 : runTicks env (n + 1) st =
      .ok ({ s2 with timer := [(idx, -1)] },
        (List.replicate (n - 1) [] ++
          [[Eff.timerFire idx,
            Eff.report (EventData.mk idx r.variation .conversion
              env.post_id 1)]]) ++ [[]]) := by
    rw [runTicks_add env n 1 st]
    simp only [h32, hrun1]
  refine ⟨fun s => rfl, runTicks_countdown env idx (n - 1) st htimer2,
    ⟨s2, h32, h33, h34⟩, ⟨_, h4, rfl, ?_⟩⟩
  intro k
  exact runTicks_stable env idx k _ rfl

/-- Engine state with a fresh open record for `e1` and a five-second
conversion countdown armed for it. -/
def stTimer5 : EngineSt :=
  EngineSt.mk [("btab_e1", .record recFresh)] [("e1", 5)]

/-- Witness for C7: the spec's own test vector, an `elapsedTime(5)`
conversion trigger observed over 5 and 6 consecutive active ticks. -/
theorem c7_timer_exactness_witness :
    ((1 : Nat) ≤ 5 ∧ stTimer5.timer = [("e1", ((5 : Nat) : Int))] ∧
      (jsSplit "e1" "goal-").length = 1 ∧
      storeGet stTimer5.store "btab_e1" = some (.record recFresh)) ∧
    ((∀ s : EngineSt, timerTick envFix false s = .ok (s, [])) ∧
    (runTicks envFix (5 - 1) stTimer5 =
      .ok ({ stTimer5 with timer := [("e1", 1)] },
        List.replicate (5 - 1) [])) ∧
    (∃ stFire, runTicks envFix 5 stTimer5 =
        .ok (stFire, List.replicate (5 - 1) [] ++
          [[Eff.timerFire "e1",
            Eff.report (EventData.mk "e1" recFresh.variation .conversion
              "p7" 1)]]) ∧
      stFire.timer = [("e1", 0)] ∧
      storeGet stFire.store "btab_e1" =
        some (.record { recFresh with conversion := 1 })) ∧
    (∃ stAfter, runTicks envFix (5 + 1) stTimer5 =
        .ok (stAfter, (List.replicate (5 - 1) [] ++
          [[Eff.timerFire "e1",
            Eff.report (EventData.mk "e1" recFresh.variation .conversion
              "p7" 1)]]) ++ [[]]) ∧
      stAfter.timer = [("e1", -1)] ∧
      ∀ k : Nat, runTicks envFix k stAfter =
        .ok (stAfter, List.replicate k []))) :=
  ⟨⟨by decide, rfl, by decide, rfl⟩,
    c7_timer_exactness envFix stTimer5 "e1" 5 recFresh cfgFix (by decide) rfl
      (by decide) (by decide) rfl rfl (by decide) (by decide) rfl rfl
      (by decide)⟩

end ABST
